import Mathlib

/-!
Verification of the instantfolio-sol name registry program.

The Rust sources (src/processor.rs, src/validation.rs, src/state.rs,
src/error.rs) are embedded shallowly at the level of the typed records the
program manipulates.  The byte-buffer (de)serialization layer (the host SDK
Pack trait) is outside src/ and is modelled from the spec, section 4.1: a
read of a record slot yields the typed record, and a slot that was never
written holds the default value with is_initialized = false.  Machine
integers: lamports amounts are u64, modelled as Nat with an explicit 2^64
bound where the code uses checked arithmetic; unix timestamps are i64,
modelled as Int.  Rust strings are modelled as lists of unicode scalar
values (Lean Char, which coincides with Rust char).
-/

namespace InstantFolio

/-- A 32-byte account address (solana Pubkey), modelled as its value as a
natural number below 2^256.  Only equality and the all-zero default are used
by the program. -/
structure Pubkey where
  val : Nat
deriving DecidableEq, Repr

/-- Pubkey::default(), the all-zero sentinel address. -/
def Pubkey.default : Pubkey := ⟨0⟩

/-- Pubkey::to_bytes(): the 32-byte representation of an address, here in
little-endian byte order. -/
def pubkeyToBytes (p : Pubkey) : List Nat :=
  (List.range 32).map (fun i => p.val / 256 ^ i % 256)

/-- The error values the embedded operations can surface: the
NameRegistryError enumeration of src/error.rs together with the host
ProgramError values the processor returns directly
(MissingRequiredSignature, IncorrectProgramId, ArithmeticOverflow) and a
marker for a failure of the external value-transfer primitive. -/
inductive RegError where
  | InvalidNameFormat
  | NameTaken
  | InsufficientFee
  | NameAlreadyRegistered
  | NotNameOwner
  | InvalidAddress
  | CooldownNotOver
  | NoPendingUpdate
  | NotPendingAddress
  | NotContractOwner
  | InvalidNewOwner
  | NotPendingContractOwner
  | NotInitialized
  | AlreadyInitialized
  | NameNotFound
  | NothingToWithdraw
  | MissingRequiredSignature
  | IncorrectProgramId
  | ArithmeticOverflow
  | TransferFailed
deriving DecidableEq, Repr

/-- UTF-8 byte length of one unicode scalar value; Rust String::len() sums
these, since a Rust String stores UTF-8 bytes. -/
def charUtf8Size (c : Char) : Nat :=
  if c.toNat < 0x80 then 1
  else if c.toNat < 0x800 then 2
  else if c.toNat < 0x10000 then 3
  else 4

/-- Rust String::len(): the UTF-8 byte length of the string. -/
def rustStrLen (s : List Char) : Nat :=
  (s.map charUtf8Size).sum

/-- Modelled from the spec: Rust char::is_alphanumeric, whose unicode
tables live in the Rust standard library outside src/.  It holds of the
general categories Alphabetic, Nd, Nl and No.  This model is exact on the
Basic Latin and Latin-1 Supplement blocks (U+0000..U+00FF): the ASCII
digits and letters, the Latin-1 letters U+00AA, U+00B5, U+00BA,
U+00C0..U+00D6, U+00D8..U+00F6, U+00F8..U+00FF, and the Latin-1 numeric
characters U+00B2, U+00B3, U+00B9, U+00BC..U+00BE.  Codepoints above
U+00FF are mapped to false and are kept out of the concrete inputs of the
theorems below. -/
def rustCharIsAlphanumeric (c : Char) : Bool :=
  let n := c.toNat
  (48 ≤ n && n ≤ 57) || (65 ≤ n && n ≤ 90) || (97 ≤ n && n ≤ 122) ||
  n == 0xAA || n == 0xB2 || n == 0xB3 || n == 0xB5 || n == 0xB9 || n == 0xBA ||
  (0xBC ≤ n && n ≤ 0xBE) || (0xC0 ≤ n && n ≤ 0xD6) ||
  (0xD8 ≤ n && n ≤ 0xF6) || (0xF8 ≤ n && n ≤ 0xFF)

/-- MAX_NAME_LENGTH of src/validation.rs. -/
def MAX_NAME_LENGTH : Nat := 32

/-- validate_name of src/validation.rs: rejects the empty string, a string
of more than 32 UTF-8 bytes, and a string with a character that is neither
alphanumeric (in the unicode sense of Rust char::is_alphanumeric) nor
the dash. -/
def validate_name (name : List Char) : Except RegError Unit :=
  if name = [] then .error .InvalidNameFormat
  else if MAX_NAME_LENGTH < rustStrLen name then .error .InvalidNameFormat
  else if !(name.all (fun c => rustCharIsAlphanumeric c || c == '-')) then
    .error .InvalidNameFormat
  else .ok ()

/-- validate_address of src/validation.rs: rejects the all-zero sentinel. -/
def validate_address (address : Pubkey) : Except RegError Unit :=
  if address = Pubkey.default then .error .InvalidAddress else .ok ()

/-- validate_cooldown of src/validation.rs: fails while the current time is
strictly before the stored cooldown_until (the clock read is passed in as
the parameter now). -/
def validate_cooldown (now cooldown_until : Int) : Except RegError Unit :=
  if now < cooldown_until then .error .CooldownNotOver else .ok ()

/-- get_cooldown_until of src/validation.rs: the current time plus one day
in seconds. -/
def get_cooldown_until (now : Int) : Int :=
  now + 86400

/-- validate_owner of src/validation.rs. -/
def validate_owner (owner signer : Pubkey) : Except RegError Unit :=
  if owner ≠ signer then .error .NotNameOwner else .ok ()

/-- validate_program_owner of src/validation.rs. -/
def validate_program_owner (owner signer : Pubkey) : Except RegError Unit :=
  if owner ≠ signer then .error .NotContractOwner else .ok ()

/-- NameAccount of src/state.rs: the primary name record. -/
structure NameAccount where
  is_initialized : Bool
  owner : Pubkey
  name : List Char
  address : Pubkey
  cooldown_until : Int
deriving DecidableEq, Repr

/-- AddressAccount of src/state.rs: the reverse record keyed by an owner
address. -/
structure AddressAccount where
  is_initialized : Bool
  name : List Char
deriving DecidableEq, Repr

/-- PendingUpdateAccount of src/state.rs: the pending-update escrow. -/
structure PendingUpdateAccount where
  is_initialized : Bool
  new_address : Pubkey
deriving DecidableEq, Repr

/-- ProgramConfig of src/state.rs: the administration record. -/
structure ProgramConfig where
  is_initialized : Bool
  owner : Pubkey
  pending_owner : Pubkey
  registration_fee : Nat
deriving DecidableEq, Repr

/-- Outcome of one embedded operation over its record state σ: either
success with the final state, or an error together with the state at the
moment of failure, so that partial writes performed before the error stay
visible to the frame theorems. -/
inductive PRes (σ : Type) where
  | ok (s : σ)
  | fail (e : RegError) (s : σ)
deriving DecidableEq, Repr

/-- 2^64, the overflow bound of u64 lamports arithmetic. -/
def U64_LIMIT : Nat := 2 ^ 64

/-- Inputs of process_initialize of src/processor.rs: the signing flag and
key of the initializer, the config record read from the config account, and
the fee argument. -/
structure InitInputs where
  initializer_key : Pubkey
  initializer_signer : Bool
  config_account : ProgramConfig
  registration_fee : Nat
deriving DecidableEq, Repr

/-- process_initialize of src/processor.rs (named with the _op suffix in
this development). -/
def process_initialize_op (i : InitInputs) : PRes ProgramConfig :=
  if i.initializer_signer = false then
    .fail .MissingRequiredSignature i.config_account
  else if i.config_account.is_initialized = true then
    .fail .AlreadyInitialized i.config_account
  else
    .ok { is_initialized := true, owner := i.initializer_key,
          pending_owner := Pubkey.default,
          registration_fee := i.registration_fee }

/-- Inputs of process_register_name of src/processor.rs: the registrant
account (key, signer flag, lamports balance), the three records read from
the name, address and config accounts, the lamports held by the config
account, whether the supplied system-program account has the system program
id, the name argument, and the clock reading. -/
structure RegisterInputs where
  registrant_key : Pubkey
  registrant_signer : Bool
  registrant_lamports : Nat
  name_account : NameAccount
  address_account : AddressAccount
  config_account : ProgramConfig
  config_lamports : Nat
  system_program_key_ok : Bool
  name : List Char
  now : Int
deriving DecidableEq, Repr

/-- The mutable state process_register_name can touch. -/
structure RegisterState where
  name_account : NameAccount
  address_account : AddressAccount
  registrant_lamports : Nat
  config_lamports : Nat
deriving DecidableEq, Repr

/-- The untouched starting state of a RegisterName invocation. -/
def RegisterInputs.start (i : RegisterInputs) : RegisterState :=
  { name_account := i.name_account, address_account := i.address_account,
    registrant_lamports := i.registrant_lamports,
    config_lamports := i.config_lamports }

/-- process_register_name of src/processor.rs.  The fee transfer is the
external value-transfer primitive, modelled from the spec, section 1(c): it
moves registration_fee lamports from the registrant to the config account
and fails when the payer's balance is insufficient. -/
def process_register_name (i : RegisterInputs) : PRes RegisterState :=
  if i.registrant_signer = false then
    .fail .MissingRequiredSignature i.start
  else if i.system_program_key_ok = false then
    .fail .IncorrectProgramId i.start
  else match validate_name i.name with
  | .error e => .fail e i.start
  | .ok _ =>
    if i.name_account.is_initialized = true then
      .fail .NameTaken i.start
    else if i.address_account.is_initialized = true then
      .fail .NameAlreadyRegistered i.start
    else if i.registrant_lamports < i.config_account.registration_fee then
      .fail .TransferFailed i.start
    else
      .ok { name_account :=
              { is_initialized := true, owner := i.registrant_key,
                name := i.name, address := i.registrant_key,
                cooldown_until := i.now },
            address_account := { is_initialized := true, name := i.name },
            registrant_lamports :=
              i.registrant_lamports - i.config_account.registration_fee,
            config_lamports :=
              i.config_lamports + i.config_account.registration_fee }

/-- Inputs of process_request_address_update of src/processor.rs. -/
structure RequestInputs where
  current_owner_key : Pubkey
  current_owner_signer : Bool
  name_account : NameAccount
  pending_update_account : PendingUpdateAccount
  new_address : Pubkey
  now : Int
deriving DecidableEq, Repr

/-- The mutable state process_request_address_update can touch (the name
record is only read, but is carried so the frame theorems can speak about
it). -/
structure RequestState where
  name_account : NameAccount
  pending_update_account : PendingUpdateAccount
deriving DecidableEq, Repr

/-- The untouched starting state of a RequestAddressUpdate invocation. -/
def RequestInputs.start (i : RequestInputs) : RequestState :=
  { name_account := i.name_account,
    pending_update_account := i.pending_update_account }

/-- process_request_address_update of src/processor.rs. -/
def process_request_address_update (i : RequestInputs) : PRes RequestState :=
  if i.current_owner_signer = false then
    .fail .MissingRequiredSignature i.start
  else match validate_address i.new_address with
  | .error e => .fail e i.start
  | .ok _ =>
    match validate_owner i.name_account.owner i.current_owner_key with
    | .error e => .fail e i.start
    | .ok _ =>
      match validate_cooldown i.now i.name_account.cooldown_until with
      | .error e => .fail e i.start
      | .ok _ =>
        .ok { name_account := i.name_account,
              pending_update_account :=
                { is_initialized := true, new_address := i.new_address } }

/-- Inputs of process_complete_address_update of src/processor.rs. -/
structure CompleteInputs where
  new_owner_key : Pubkey
  new_owner_signer : Bool
  name_account : NameAccount
  address_account : AddressAccount
  pending_update_account : PendingUpdateAccount
  now : Int
deriving DecidableEq, Repr

/-- The mutable state process_complete_address_update can touch. -/
structure CompleteState where
  name_account : NameAccount
  address_account : AddressAccount
  pending_update_account : PendingUpdateAccount
deriving DecidableEq, Repr

/-- The untouched starting state of a CompleteAddressUpdate invocation. -/
def CompleteInputs.start (i : CompleteInputs) : CompleteState :=
  { name_account := i.name_account, address_account := i.address_account,
    pending_update_account := i.pending_update_account }

/-- process_complete_address_update of src/processor.rs.  The address
record is read and written back without modification; the pending escrow is
re-read and cleared after the name record is written. -/
def process_complete_address_update (i : CompleteInputs) : PRes CompleteState :=
  if i.new_owner_signer = false then
    .fail .MissingRequiredSignature i.start
  else if i.pending_update_account.is_initialized = false then
    .fail .NoPendingUpdate i.start
  else if i.pending_update_account.new_address ≠ i.new_owner_key then
    .fail .NotPendingAddress i.start
  else
    .ok { name_account :=
            { i.name_account with address := i.new_owner_key,
                                  owner := i.new_owner_key,
                                  cooldown_until := i.now },
          address_account := i.address_account,
          pending_update_account :=
            { is_initialized := false, new_address := Pubkey.default } }

/-- Inputs of process_rename_name of src/processor.rs. -/
structure RenameInputs where
  current_owner_key : Pubkey
  current_owner_signer : Bool
  old_name_account : NameAccount
  new_name_account : NameAccount
  address_account : AddressAccount
  new_name : List Char
  now : Int
deriving DecidableEq, Repr

/-- The mutable state process_rename_name can touch. -/
structure RenameState where
  old_name_account : NameAccount
  new_name_account : NameAccount
  address_account : AddressAccount
deriving DecidableEq, Repr

/-- The untouched starting state of a RenameName invocation. -/
def RenameInputs.start (i : RenameInputs) : RenameState :=
  { old_name_account := i.old_name_account,
    new_name_account := i.new_name_account,
    address_account := i.address_account }

/-- process_rename_name of src/processor.rs: populate the new name record,
re-point the reverse record's name, clear the old name record. -/
def process_rename_name (i : RenameInputs) : PRes RenameState :=
  if i.current_owner_signer = false then
    .fail .MissingRequiredSignature i.start
  else match validate_name i.new_name with
  | .error e => .fail e i.start
  | .ok _ =>
    match validate_owner i.old_name_account.owner i.current_owner_key with
    | .error e => .fail e i.start
    | .ok _ =>
      match validate_cooldown i.now i.old_name_account.cooldown_until with
      | .error e => .fail e i.start
      | .ok _ =>
        if i.new_name_account.is_initialized = true then
          .fail .NameTaken i.start
        else
          .ok { old_name_account :=
                  { is_initialized := false, owner := Pubkey.default,
                    name := [], address := Pubkey.default,
                    cooldown_until := 0 },
                new_name_account :=
                  { is_initialized := true, owner := i.current_owner_key,
                    name := i.new_name,
                    address := i.old_name_account.address,
                    cooldown_until := i.now },
                address_account :=
                  { i.address_account with name := i.new_name } }

/-- Inputs of process_set_registration_fee of src/processor.rs. -/
structure SetFeeInputs where
  owner_key : Pubkey
  owner_signer : Bool
  config_account : ProgramConfig
  new_fee : Nat
deriving DecidableEq, Repr

/-- process_set_registration_fee of src/processor.rs. -/
def process_set_registration_fee (i : SetFeeInputs) : PRes ProgramConfig :=
  if i.owner_signer = false then
    .fail .MissingRequiredSignature i.config_account
  else match validate_program_owner i.config_account.owner i.owner_key with
  | .error e => .fail e i.config_account
  | .ok _ => .ok { i.config_account with registration_fee := i.new_fee }

/-- Inputs of process_change_program_owner of src/processor.rs. -/
structure ChangeOwnerInputs where
  current_owner_key : Pubkey
  current_owner_signer : Bool
  config_account : ProgramConfig
  new_owner : Pubkey
deriving DecidableEq, Repr

/-- process_change_program_owner of src/processor.rs. -/
def process_change_program_owner (i : ChangeOwnerInputs) : PRes ProgramConfig :=
  if i.current_owner_signer = false then
    .fail .MissingRequiredSignature i.config_account
  else match validate_address i.new_owner with
  | .error e => .fail e i.config_account
  | .ok _ =>
    match validate_program_owner i.config_account.owner i.current_owner_key with
    | .error e => .fail e i.config_account
    | .ok _ => .ok { i.config_account with pending_owner := i.new_owner }

/-- Inputs of process_accept_program_ownership of src/processor.rs. -/
structure AcceptInputs where
  pending_owner_key : Pubkey
  pending_owner_signer : Bool
  config_account : ProgramConfig
deriving DecidableEq, Repr

/-- process_accept_program_ownership of src/processor.rs: the signer must
equal the stored pending_owner; there is no separate check against the
all-zero sentinel. -/
def process_accept_program_ownership (i : AcceptInputs) : PRes ProgramConfig :=
  if i.pending_owner_signer = false then
    .fail .MissingRequiredSignature i.config_account
  else if i.config_account.pending_owner ≠ i.pending_owner_key then
    .fail .NotPendingContractOwner i.config_account
  else
    .ok { i.config_account with owner := i.pending_owner_key,
                                pending_owner := Pubkey.default }

/-- process_resolve_address of src/processor.rs: read-only; emits the
record's stored address as return data on success. -/
def process_resolve_address (n : NameAccount) : Except RegError (List Nat) :=
  if n.is_initialized = false then .error .NameNotFound
  else .ok (pubkeyToBytes n.address)

/-- process_get_contract_owner of src/processor.rs: read-only. -/
def process_get_contract_owner (c : ProgramConfig) : List Nat :=
  pubkeyToBytes c.owner

/-- process_get_pending_contract_owner of src/processor.rs: read-only. -/
def process_get_pending_contract_owner (c : ProgramConfig) : List Nat :=
  pubkeyToBytes c.pending_owner

/-- u64::to_le_bytes. -/
def u64ToLeBytes (n : Nat) : List Nat :=
  (List.range 8).map (fun i => n / 256 ^ i % 256)

/-- process_get_registration_fee of src/processor.rs: read-only. -/
def process_get_registration_fee (c : ProgramConfig) : List Nat :=
  u64ToLeBytes c.registration_fee

/-- Inputs of process_withdraw of src/processor.rs: the caller account
(key, signer flag, lamports), the config record and the lamports held by
the config account. -/
structure WithdrawInputs where
  owner_key : Pubkey
  owner_signer : Bool
  owner_lamports : Nat
  config_account : ProgramConfig
  config_lamports : Nat
deriving DecidableEq, Repr

/-- The mutable state process_withdraw can touch. -/
structure WithdrawState where
  config_account : ProgramConfig
  config_lamports : Nat
  owner_lamports : Nat
deriving DecidableEq, Repr

/-- The untouched starting state of a Withdraw invocation. -/
def WithdrawInputs.start (i : WithdrawInputs) : WithdrawState :=
  { config_account := i.config_account, config_lamports := i.config_lamports,
    owner_lamports := i.owner_lamports }

/-- process_withdraw of src/processor.rs.  The source zeroes the config
account's lamports first and only then credits the caller with
checked_add, so the overflow failure is raised from a state whose config
lamports are already zero — the record contents themselves are untouched. -/
def process_withdraw (i : WithdrawInputs) : PRes WithdrawState :=
  if i.owner_signer = false then
    .fail .MissingRequiredSignature i.start
  else match validate_program_owner i.config_account.owner i.owner_key with
  | .error e => .fail e i.start
  | .ok _ =>
    if i.config_lamports = 0 then
      .fail .NothingToWithdraw i.start
    else if U64_LIMIT ≤ i.owner_lamports + i.config_lamports then
      .fail .ArithmeticOverflow { i.start with config_lamports := 0 }
    else
      .ok { config_account := i.config_account, config_lamports := 0,
            owner_lamports := i.owner_lamports + i.config_lamports }

/-- The character class of the name format stated by the spec, for
comparison with the code's validate_name: ASCII uppercase letters
(codepoints 65 to 90), lowercase letters (97 to 122), digits (48 to 57)
and the dash (45). -/
def isAsciiAlnumOrDash (c : Char) : Bool :=
  (65 ≤ c.toNat && c.toNat ≤ 90) || (97 ≤ c.toNat && c.toNat ≤ 122) ||
  (48 ≤ c.toNat && c.toNat ≤ 57) || c.toNat == 45

/-- Whether a string matches the spec's name regex: one to 32 characters,
all of them ASCII alphanumeric or the dash. -/
def specNamePattern (s : List Char) : Bool :=
  !s.isEmpty && s.length ≤ 32 && s.all isAsciiAlnumOrDash

/-- A sample config record: administrator key 7, fee 5 lamports, no pending
administrator. -/
def sampleConfig : ProgramConfig :=
  { is_initialized := true, owner := ⟨7⟩, pending_owner := Pubkey.default,
    registration_fee := 5 }

/-- A never-written name record slot. -/
def emptyName : NameAccount :=
  { is_initialized := false, owner := Pubkey.default, name := [],
    address := Pubkey.default, cooldown_until := 0 }

/-- A never-written reverse record slot. -/
def emptyAddr : AddressAccount :=
  { is_initialized := false, name := [] }

/-- A never-written escrow record slot. -/
def emptyPending : PendingUpdateAccount :=
  { is_initialized := false, new_address := Pubkey.default }

/-- A sample RegisterName invocation that succeeds: caller 1 registers the
name "a" at time 1000 with 10 lamports against sampleConfig. -/
def regIn1 : RegisterInputs :=
  { registrant_key := ⟨1⟩, registrant_signer := true,
    registrant_lamports := 10, name_account := emptyName,
    address_account := emptyAddr, config_account := sampleConfig,
    config_lamports := 0, system_program_key_ok := true, name := ['a'],
    now := 1000 }

/-- The state regIn1 produces. -/
def regSt1 : RegisterState :=
  { name_account :=
      { is_initialized := true, owner := ⟨1⟩, name := ['a'],
        address := ⟨1⟩, cooldown_until := 1000 },
    address_account := { is_initialized := true, name := ['a'] },
    registrant_lamports := 5, config_lamports := 5 }

/-- A sample CompleteAddressUpdate invocation that succeeds: target key 2
completes the pending rotation of the name "a" owned by key 1. -/
def completeIn1 : CompleteInputs :=
  { new_owner_key := ⟨2⟩, new_owner_signer := true,
    name_account :=
      { is_initialized := true, owner := ⟨1⟩, name := ['a'],
        address := ⟨1⟩, cooldown_until := 1000 },
    address_account := { is_initialized := true, name := ['a'] },
    pending_update_account := { is_initialized := true, new_address := ⟨2⟩ },
    now := 2000 }

/-- The state completeIn1 produces. -/
def completeSt1 : CompleteState :=
  { name_account :=
      { is_initialized := true, owner := ⟨2⟩, name := ['a'],
        address := ⟨2⟩, cooldown_until := 2000 },
    address_account := { is_initialized := true, name := ['a'] },
    pending_update_account :=
      { is_initialized := false, new_address := Pubkey.default } }

/-- completeIn1 with no pending escrow. -/
def completeIn2 : CompleteInputs :=
  { completeIn1 with pending_update_account := emptyPending }

/-- completeIn1 signed by key 9, which is not the escrow target. -/
def completeIn3 : CompleteInputs :=
  { completeIn1 with new_owner_key := ⟨9⟩ }

/-- A sample RenameName invocation that succeeds: owner 1 renames "a" to
"b" exactly at the cooldown boundary. -/
def renameIn1 : RenameInputs :=
  { current_owner_key := ⟨1⟩, current_owner_signer := true,
    old_name_account :=
      { is_initialized := true, owner := ⟨1⟩, name := ['a'],
        address := ⟨1⟩, cooldown_until := 1000 },
    new_name_account := emptyName,
    address_account := { is_initialized := true, name := ['a'] },
    new_name := ['b'], now := 1000 }

/-- The state renameIn1 produces. -/
def renameSt1 : RenameState :=
  { old_name_account := emptyName,
    new_name_account :=
      { is_initialized := true, owner := ⟨1⟩, name := ['b'],
        address := ⟨1⟩, cooldown_until := 1000 },
    address_account := { is_initialized := true, name := ['b'] } }

/-- A Withdraw invocation by the administrator of sampleConfig against an
empty vault. -/
def withdrawIn1 : WithdrawInputs :=
  { owner_key := ⟨7⟩, owner_signer := true, owner_lamports := 100,
    config_account := sampleConfig, config_lamports := 0 }

/-- An AcceptProgramOwnership invocation by key 3 while key 3 is the
recorded pending administrator. -/
def acceptIn1 : AcceptInputs :=
  { pending_owner_key := ⟨3⟩, pending_owner_signer := true,
    config_account :=
      { is_initialized := true, owner := ⟨7⟩, pending_owner := ⟨3⟩,
        registration_fee := 5 } }

/-- An AcceptProgramOwnership invocation by key 3 while no handoff is
pending. -/
def acceptIn2 : AcceptInputs :=
  { pending_owner_key := ⟨3⟩, pending_owner_signer := true,
    config_account := sampleConfig }

theorem char_eq_of_toNat_eq {c d : Char} (h : c.toNat = d.toNat) : c = d := by
  apply Char.ext
  apply UInt32.eq_of_val_eq
  apply Fin.ext
  simpa [Char.toNat, UInt32.toNat] using h

theorem register_ok_elim (i : RegisterInputs) (st : RegisterState)
    (h : process_register_name i = .ok st) :
    st = { name_account :=
             { is_initialized := true, owner := i.registrant_key,
               name := i.name, address := i.registrant_key,
               cooldown_until := i.now },
           address_account := { is_initialized := true, name := i.name },
           registrant_lamports :=
             i.registrant_lamports - i.config_account.registration_fee,
           config_lamports :=
             i.config_lamports + i.config_account.registration_fee } := by
  unfold process_register_name at h
  repeat' split at h
  all_goals cases h
  rfl

theorem register_fail_elim (i : RegisterInputs) (e : RegError)
    (st : RegisterState) (h : process_register_name i = .fail e st) :
    st = i.start := by
  unfold process_register_name at h
  repeat' split at h
  all_goals cases h
  all_goals rfl

theorem request_ok_elim (i : RequestInputs) (st : RequestState)
    (h : process_request_address_update i = .ok st) :
    st = { name_account := i.name_account,
           pending_update_account :=
             { is_initialized := true, new_address := i.new_address } } := by
  unfold process_request_address_update at h
  repeat' split at h
  all_goals cases h
  all_goals rfl

theorem request_fail_elim (i : RequestInputs) (e : RegError)
    (st : RequestState) (h : process_request_address_update i = .fail e st) :
    st = i.start := by
  unfold process_request_address_update at h
  repeat' split at h
  all_goals cases h
  all_goals rfl

theorem complete_ok_elim (i : CompleteInputs) (st : CompleteState)
    (h : process_complete_address_update i = .ok st) :
    st = { name_account :=
             { i.name_account with address := i.new_owner_key,
                                   owner := i.new_owner_key,
                                   cooldown_until := i.now },
           address_account := i.address_account,
           pending_update_account :=
             { is_initialized := false, new_address := Pubkey.default } } := by
  unfold process_complete_address_update at h
  repeat' split at h
  all_goals cases h
  all_goals rfl

theorem complete_fail_elim (i : CompleteInputs) (e : RegError)
    (st : CompleteState) (h : process_complete_address_update i = .fail e st) :
    st = i.start := by
  unfold process_complete_address_update at h
  repeat' split at h
  all_goals cases h
  all_goals rfl

theorem rename_ok_elim (i : RenameInputs) (st : RenameState)
    (h : process_rename_name i = .ok st) :
    st = { old_name_account :=
             { is_initialized := false, owner := Pubkey.default,
               name := [], address := Pubkey.default, cooldown_until := 0 },
           new_name_account :=
             { is_initialized := true, owner := i.current_owner_key,
               name := i.new_name, address := i.old_name_account.address,
               cooldown_until := i.now },
           address_account :=
             { i.address_account with name := i.new_name } } := by
  unfold process_rename_name at h
  repeat' split at h
  all_goals cases h
  all_goals rfl

theorem rename_fail_elim (i : RenameInputs) (e : RegError)
    (st : RenameState) (h : process_rename_name i = .fail e st) :
    st = i.start := by
  unfold process_rename_name at h
  repeat' split at h
  all_goals cases h
  all_goals rfl

theorem init_fail_elim (i : InitInputs) (e : RegError) (c : ProgramConfig)
    (h : process_initialize_op i = .fail e c) : c = i.config_account := by
  unfold process_initialize_op at h
  repeat' split at h
  all_goals cases h
  all_goals rfl

theorem setfee_fail_elim (i : SetFeeInputs) (e : RegError) (c : ProgramConfig)
    (h : process_set_registration_fee i = .fail e c) :
    c = i.config_account := by
  unfold process_set_registration_fee at h
  repeat' split at h
  all_goals cases h
  all_goals rfl

theorem changeowner_fail_elim (i : ChangeOwnerInputs) (e : RegError)
    (c : ProgramConfig) (h : process_change_program_owner i = .fail e c) :
    c = i.config_account := by
  unfold process_change_program_owner at h
  repeat' split at h
  all_goals cases h
  all_goals rfl

theorem accept_ok_elim (i : AcceptInputs) (c : ProgramConfig)
    (h : process_accept_program_ownership i = .ok c) :
    c = { i.config_account with owner := i.pending_owner_key,
                                pending_owner := Pubkey.default } := by
  unfold process_accept_program_ownership at h
  repeat' split at h
  all_goals cases h
  all_goals rfl

theorem accept_fail_elim (i : AcceptInputs) (e : RegError) (c : ProgramConfig)
    (h : process_accept_program_ownership i = .fail e c) :
    c = i.config_account := by
  unfold process_accept_program_ownership at h
  repeat' split at h
  all_goals cases h
  all_goals rfl

theorem withdraw_fail_records (i : WithdrawInputs) (e : RegError)
    (st : WithdrawState) (h : process_withdraw i = .fail e st) :
    st.config_account = i.config_account := by
  unfold process_withdraw at h
  repeat' split at h
  all_goals cases h
  all_goals rfl

theorem ascii_char_utf8_one (c : Char) (h : isAsciiAlnumOrDash c = true) :
    charUtf8Size c = 1 := by
  simp only [isAsciiAlnumOrDash, Bool.or_eq_true, Bool.and_eq_true,
    decide_eq_true_eq, beq_iff_eq] at h
  have hlt : c.toNat < 0x80 := by omega
  simp [charUtf8Size, hlt]

theorem ascii_char_alnum_or_dash (c : Char) (h : isAsciiAlnumOrDash c = true) :
    (rustCharIsAlphanumeric c || c == '-') = true := by
  simp only [isAsciiAlnumOrDash, Bool.or_eq_true, Bool.and_eq_true,
    decide_eq_true_eq, beq_iff_eq] at h
  rcases h with ((h | h) | h) | h
  · have hr : rustCharIsAlphanumeric c = true := by
      simp only [rustCharIsAlphanumeric, Bool.or_eq_true, Bool.and_eq_true,
        decide_eq_true_eq, beq_iff_eq]
      omega
    simp [hr]
  · have hr : rustCharIsAlphanumeric c = true := by
      simp only [rustCharIsAlphanumeric, Bool.or_eq_true, Bool.and_eq_true,
        decide_eq_true_eq, beq_iff_eq]
      omega
    simp [hr]
  · have hr : rustCharIsAlphanumeric c = true := by
      simp only [rustCharIsAlphanumeric, Bool.or_eq_true, Bool.and_eq_true,
        decide_eq_true_eq, beq_iff_eq]
      omega
    simp [hr]
  · have hc : c = '-' := char_eq_of_toNat_eq (h.trans (by decide))
    subst hc
    decide

theorem rustStrLen_of_all_ascii (s : List Char)
    (h : s.all isAsciiAlnumOrDash = true) : rustStrLen s = s.length := by
  induction s with
  | nil => rfl
  | cons c t ih =>
    simp only [List.all_cons, Bool.and_eq_true] at h
    have h1 := ascii_char_utf8_one c h.1
    have h2 := ih h.2
    simp only [rustStrLen, List.map_cons, List.sum_cons, List.length_cons] at h2 ⊢
    omega

theorem validate_name_ok_iff (s : List Char) :
    validate_name s = .ok () ↔
      s ≠ [] ∧ rustStrLen s ≤ MAX_NAME_LENGTH ∧
        ∀ c ∈ s, (rustCharIsAlphanumeric c || c == '-') = true := by
  unfold validate_name
  split_ifs with h1 h2 h3
  · simp [h1]
  · constructor
    · intro h
      cases h
    · rintro ⟨-, hlen, -⟩
      omega
  · rw [Bool.not_eq_true', ← Bool.not_eq_true] at h3
    constructor
    · intro h
      cases h
    · rintro ⟨-, -, hall⟩
      exact absurd (List.all_eq_true.mpr hall) h3
  · rw [Bool.not_eq_true', ← Bool.not_eq_true, not_not] at h3
    simp only [true_iff, eq_self_iff_true]
    exact ⟨h1, by omega, List.all_eq_true.mp h3⟩

/-- Claim C1: for every name matching the spec's regex and every caller, if
RegisterName by that signing caller succeeds, a subsequent ResolveAddress
on the written name record succeeds and emits the caller's 32-byte address
as return data. -/
theorem register_then_resolve_returns_caller (i : RegisterInputs)
    (st : RegisterState) (hpat : specNamePattern i.name = true)
    (h : process_register_name i = .ok st) :
    process_resolve_address st.name_account =
      .ok (pubkeyToBytes i.registrant_key) ∧
    (pubkeyToBytes i.registrant_key).length = 32 := by
  rw [register_ok_elim i st h]
  exact ⟨rfl, by simp [pubkeyToBytes]⟩

/-- Witness for C1: caller 1 registers "a" and resolving returns caller
1's 32-byte address. -/
theorem register_then_resolve_witness :
    process_resolve_address regSt1.name_account =
      .ok (pubkeyToBytes ⟨1⟩) ∧
    (pubkeyToBytes (⟨1⟩ : Pubkey)).length = 32 :=
  register_then_resolve_returns_caller regIn1 regSt1 (by decide) rfl

/-- Claim C2 (amended): after every successful ownership-affecting
mutation (RegisterName, CompleteAddressUpdate, RenameName) the affected
name record's cooldown_until field is stamped with the current time now
itself; the helper get_cooldown_until returns now + 86400 but is not
called by any processor. -/
theorem cooldown_restamped_with_current_time :
    (∀ i st, process_register_name i = .ok st →
       st.name_account.cooldown_until = i.now) ∧
    (∀ i st, process_complete_address_update i = .ok st →
       st.name_account.cooldown_until = i.now) ∧
    (∀ i st, process_rename_name i = .ok st →
       st.new_name_account.cooldown_until = i.now) ∧
    (∀ now : Int, get_cooldown_until now = now + 86400) := by
  refine ⟨?_, ?_, ?_, fun _ => rfl⟩
  · intro i st h
    rw [register_ok_elim i st h]
  · intro i st h
    rw [complete_ok_elim i st h]
  · intro i st h
    rw [rename_ok_elim i st h]

/-- Witness for C2 (amended): the record written by regIn1 carries
cooldown_until = 1000 = now. -/
theorem cooldown_restamped_witness :
    regSt1.name_account.cooldown_until = regIn1.now :=
  cooldown_restamped_with_current_time.1 regIn1 regSt1 rfl

/-- Counterexample to C2 as stated: the concrete successful registration
regIn1 at time 1000 stamps cooldown_until = 1000, not 1000 + 86400. -/
theorem cooldown_plus_day_refuted :
    process_register_name regIn1 = PRes.ok regSt1 ∧
    regSt1.name_account.cooldown_until ≠ regIn1.now + 86400 :=
  ⟨rfl, by decide⟩

/-- Claim C3: whenever an operation fails, every record it had access to
(name, reverse, escrow, config) is left with exactly its prior contents.
The state carried by the fail outcome is the threaded state at the moment
of failure, so this is a statement about the code's write placement, not
about the host's transaction rollback (read-only operations emit no state
at all in this embedding). -/
theorem failed_operations_leave_records_unchanged :
    (∀ i e c, process_initialize_op i = .fail e c → c = i.config_account) ∧
    (∀ i e st, process_register_name i = .fail e st →
       st.name_account = i.name_account ∧
       st.address_account = i.address_account) ∧
    (∀ i e st, process_request_address_update i = .fail e st →
       st.name_account = i.name_account ∧
       st.pending_update_account = i.pending_update_account) ∧
    (∀ i e st, process_complete_address_update i = .fail e st →
       st.name_account = i.name_account ∧
       st.address_account = i.address_account ∧
       st.pending_update_account = i.pending_update_account) ∧
    (∀ i e st, process_rename_name i = .fail e st →
       st.old_name_account = i.old_name_account ∧
       st.new_name_account = i.new_name_account ∧
       st.address_account = i.address_account) ∧
    (∀ i e c, process_set_registration_fee i = .fail e c →
       c = i.config_account) ∧
    (∀ i e c, process_change_program_owner i = .fail e c →
       c = i.config_account) ∧
    (∀ i e c, process_accept_program_ownership i = .fail e c →
       c = i.config_account) ∧
    (∀ i e st, process_withdraw i = .fail e st →
       st.config_account = i.config_account) := by
  refine ⟨init_fail_elim, ?_, ?_, ?_, ?_, setfee_fail_elim,
    changeowner_fail_elim, accept_fail_elim, withdraw_fail_records⟩
  · intro i e st h
    rw [register_fail_elim i e st h]
    exact ⟨rfl, rfl⟩
  · intro i e st h
    rw [request_fail_elim i e st h]
    exact ⟨rfl, rfl⟩
  · intro i e st h
    rw [complete_fail_elim i e st h]
    exact ⟨rfl, rfl, rfl⟩
  · intro i e st h
    rw [rename_fail_elim i e st h]
    exact ⟨rfl, rfl, rfl⟩

/-- Witness for C3: a RegisterName invocation without the required
signature fails and leaves the name and reverse records at their prior
contents. -/
theorem failed_operations_witness :
    (RegisterInputs.start
       { regIn1 with registrant_signer := false }).name_account =
      emptyName ∧
    (RegisterInputs.start
       { regIn1 with registrant_signer := false }).address_account =
      emptyAddr :=
  failed_operations_leave_records_unchanged.2.1
    { regIn1 with registrant_signer := false }
    RegError.MissingRequiredSignature _ rfl

/-- Claim C4: a successful RenameName performs exactly the three-record
move: the new name record is populated with the caller as owner, the new
name and the old record's resolved address, stamped with the current
time; the reverse record changes only its name field; the old name record
is cleared entirely. -/
theorem rename_performs_three_record_move (i : RenameInputs)
    (st : RenameState) (h : process_rename_name i = .ok st) :
    st.new_name_account =
      { is_initialized := true, owner := i.current_owner_key,
        name := i.new_name, address := i.old_name_account.address,
        cooldown_until := i.now } ∧
    st.address_account = { i.address_account with name := i.new_name } ∧
    st.old_name_account =
      { is_initialized := false, owner := Pubkey.default, name := [],
        address := Pubkey.default, cooldown_until := 0 } := by
  rw [rename_ok_elim i st h]
  exact ⟨rfl, rfl, rfl⟩

/-- Witness for C4: owner 1 renames "a" to "b"; the three records move as
stated. -/
theorem rename_move_witness :
    renameSt1.new_name_account =
      { is_initialized := true, owner := ⟨1⟩, name := ['b'],
        address := ⟨1⟩, cooldown_until := 1000 } ∧
    renameSt1.address_account = { is_initialized := true, name := ['b'] } ∧
    renameSt1.old_name_account =
      { is_initialized := false, owner := Pubkey.default, name := [],
        address := Pubkey.default, cooldown_until := 0 } :=
  rename_performs_three_record_move renameIn1 renameSt1 rfl

/-- Claim C5: with a signing caller, CompleteAddressUpdate fails with
NoPendingUpdate when the escrow is not initialized, fails with
NotPendingAddress when the escrow is initialized but the caller is not its
target address, and can only succeed for the designated target signer. -/
theorem complete_update_requires_designated_target (i : CompleteInputs)
    (hs : i.new_owner_signer = true) :
    (i.pending_update_account.is_initialized = false →
       process_complete_address_update i =
         .fail .NoPendingUpdate i.start) ∧
    (i.pending_update_account.is_initialized = true →
       i.pending_update_account.new_address ≠ i.new_owner_key →
       process_complete_address_update i =
         .fail .NotPendingAddress i.start) ∧
    (∀ st, process_complete_address_update i = .ok st →
       i.pending_update_account.new_address = i.new_owner_key) := by
  refine ⟨fun h0 => ?_, fun h1 h2 => ?_, fun st h => ?_⟩
  · simp [process_complete_address_update, hs, h0]
  · simp [process_complete_address_update, hs, h1, h2]
  · by_contra hne
    cases hb : i.pending_update_account.is_initialized with
    | false => simp [process_complete_address_update, hs, hb] at h
    | true => simp [process_complete_address_update, hs, hb, hne] at h

/-- Witness for C5: completing with no escrow fails NoPendingUpdate;
completing signed by key 9 against an escrow targeting key 2 fails
NotPendingAddress. -/
theorem complete_update_errors_witness :
    process_complete_address_update completeIn2 =
      .fail .NoPendingUpdate completeIn2.start ∧
    process_complete_address_update completeIn3 =
      .fail .NotPendingAddress completeIn3.start :=
  ⟨(complete_update_requires_designated_target completeIn2 rfl).1 rfl,
   (complete_update_requires_designated_target completeIn3 rfl).2.1 rfl
     (by decide)⟩

/-- Claim C6: ResolveAddress on an uninitialized name record fails with
NameNotFound; on an initialized record it succeeds and emits the record's
stored resolved address as 32 bytes of return data. -/
theorem resolve_address_dichotomy (n : NameAccount) :
    (n.is_initialized = false →
       process_resolve_address n = .error .NameNotFound) ∧
    (n.is_initialized = true →
       process_resolve_address n = .ok (pubkeyToBytes n.address) ∧
       (pubkeyToBytes n.address).length = 32) := by
  constructor
  · intro h
    simp [process_resolve_address, h]
  · intro h
    exact ⟨by simp [process_resolve_address, h], by simp [pubkeyToBytes]⟩

/-- Witness for C6: resolving an empty slot fails NameNotFound; resolving
the record written by regIn1 returns address 1. -/
theorem resolve_address_witness :
    process_resolve_address emptyName = .error .NameNotFound ∧
    process_resolve_address regSt1.name_account = .ok (pubkeyToBytes ⟨1⟩) :=
  ⟨(resolve_address_dichotomy emptyName).1 rfl,
   ((resolve_address_dichotomy regSt1.name_account).2 rfl).1⟩

/-- Claim C8: Withdraw by the signing administrator fails with
NothingToWithdraw when the vault holds zero; otherwise it moves the whole
held value to the caller, zeroing the vault, and the credit is checked
u64 arithmetic that fails with ArithmeticOverflow instead of wrapping. -/
theorem withdraw_spec (i : WithdrawInputs) (hs : i.owner_signer = true)
    (hadm : i.config_account.owner = i.owner_key) :
    (i.config_lamports = 0 →
       process_withdraw i = .fail .NothingToWithdraw i.start) ∧
    (i.config_lamports ≠ 0 →
       i.owner_lamports + i.config_lamports < U64_LIMIT →
       process_withdraw i =
         .ok { config_account := i.config_account, config_lamports := 0,
               owner_lamports := i.owner_lamports + i.config_lamports }) ∧
    (i.config_lamports ≠ 0 →
       U64_LIMIT ≤ i.owner_lamports + i.config_lamports →
       process_withdraw i =
         .fail .ArithmeticOverflow { i.start with config_lamports := 0 }) := by
  refine ⟨fun h0 => ?_, fun hne hlt => ?_, fun hne hge => ?_⟩
  · simp [process_withdraw, validate_program_owner, hs, hadm, h0]
  · simp [process_withdraw, validate_program_owner, hs, hadm, hne,
      Nat.not_le_of_lt hlt]
  · simp [process_withdraw, validate_program_owner, hs, hadm, hne, hge]

/-- Witness for C8: the administrator withdrawing from an empty vault
fails NothingToWithdraw. -/
theorem withdraw_spec_witness :
    process_withdraw withdrawIn1 =
      .fail .NothingToWithdraw withdrawIn1.start :=
  (withdraw_spec withdrawIn1 rfl rfl).1 rfl

/-- Claim C9: a successful CompleteAddressUpdate writes the reverse record
back exactly as it was read, so the reverse pointer is not re-pointed. -/
theorem complete_update_preserves_reverse_record (i : CompleteInputs)
    (st : CompleteState) (h : process_complete_address_update i = .ok st) :
    st.address_account = i.address_account := by
  rw [complete_ok_elim i st h]

/-- Witness for C9: the successful completion completeIn1 leaves the
reverse record untouched. -/
theorem complete_preserves_reverse_witness :
    completeSt1.address_account = completeIn1.address_account :=
  complete_update_preserves_reverse_record completeIn1 completeSt1 rfl

/-- Claim C10: with a signing caller, AcceptProgramOwnership succeeds
exactly when the caller's key equals the stored pending administrator,
with no separate check against the zero sentinel; when no handoff is
pending every non-zero caller fails NotPendingContractOwner; and success
installs the caller as administrator and resets the pending field. -/
theorem accept_ownership_exact_condition (i : AcceptInputs)
    (hs : i.pending_owner_signer = true) :
    ((∃ c, process_accept_program_ownership i = .ok c) ↔
       i.config_account.pending_owner = i.pending_owner_key) ∧
    (i.config_account.pending_owner = Pubkey.default →
       i.pending_owner_key ≠ Pubkey.default →
       process_accept_program_ownership i =
         .fail .NotPendingContractOwner i.config_account) ∧
    (∀ c, process_accept_program_ownership i = .ok c →
       c = { i.config_account with owner := i.pending_owner_key,
                                   pending_owner := Pubkey.default }) := by
  refine ⟨⟨?_, ?_⟩, fun h1 h2 => ?_, accept_ok_elim i⟩
  · rintro ⟨c, hc⟩
    by_contra hne
    simp [process_accept_program_ownership, hs, hne] at hc
  · intro heq
    refine ⟨{ i.config_account with owner := i.pending_owner_key, pending_owner := Pubkey.default }, ?_⟩
    simp [process_accept_program_ownership, hs, heq]
  · have hne : i.config_account.pending_owner ≠ i.pending_owner_key := by
      rw [h1]
      exact fun hh => h2 hh.symm
    simp [process_accept_program_ownership, hs, hne]

/-- Witness for C10: with no pending handoff, caller 3 fails
NotPendingContractOwner; when key 3 is pending, accepting installs key 3
and clears the pending field. -/
theorem accept_ownership_witness :
    process_accept_program_ownership acceptIn2 =
      .fail .NotPendingContractOwner acceptIn2.config_account ∧
    ({ is_initialized := true, owner := ⟨3⟩,
       pending_owner := Pubkey.default,
       registration_fee := 5 } : ProgramConfig) =
      { acceptIn1.config_account with owner := acceptIn1.pending_owner_key,
                                      pending_owner := Pubkey.default } :=
  ⟨(accept_ownership_exact_condition acceptIn2 rfl).2.1 rfl (by decide),
   (accept_ownership_exact_condition acceptIn1 rfl).2.2 _ rfl⟩

/-- Claim C7 (amended): validate_name accepts a string exactly when it is
non-empty, at most 32 UTF-8 bytes long, and every character is
alphanumeric in the unicode sense of Rust char::is_alphanumeric or the
dash; every string matching the spec's ASCII regex is accepted, but the
accepted set is strictly larger. -/
theorem validate_name_spec :
    (∀ s : List Char, validate_name s = .ok () ↔
        s ≠ [] ∧ rustStrLen s ≤ MAX_NAME_LENGTH ∧
          ∀ c ∈ s, (rustCharIsAlphanumeric c || c == '-') = true) ∧
    (∀ s : List Char, specNamePattern s = true → validate_name s = .ok ()) := by
  refine ⟨validate_name_ok_iff, fun s hs => ?_⟩
  simp only [specNamePattern, Bool.and_eq_true, Bool.not_eq_true',
    List.isEmpty_eq_false, decide_eq_true_eq] at hs
  obtain ⟨⟨hne, hlen⟩, hall⟩ := hs
  refine (validate_name_ok_iff s).mpr ⟨hne, ?_, ?_⟩
  · rw [rustStrLen_of_all_ascii s hall]
    exact hlen
  · intro c hc
    exact ascii_char_alnum_or_dash c (List.all_eq_true.mp hall c hc)

/-- Witness for C7 (amended): the one-letter name "a" matches the regex
and is accepted. -/
theorem validate_name_spec_witness : validate_name ['a'] = .ok () :=
  validate_name_spec.2 ['a'] (by decide)

/-- Counterexample to C7 as stated: the one-character string "é" is
accepted by validate_name (U+00E9 is unicode-alphanumeric) yet does not
match the ASCII regex, and a string of 17 such characters — 17 characters,
each alphanumeric — is rejected because its UTF-8 byte length 34 exceeds
32, so the accepted set is not the regex language and the length limit is
in bytes, not characters. -/
theorem validate_name_regex_refuted :
    validate_name ['é'] = .ok () ∧
    specNamePattern ['é'] = false ∧
    validate_name (List.replicate 17 'é') = .error .InvalidNameFormat :=
  ⟨rfl, by decide, rfl⟩

end InstantFolio
